import Mathlib

/-
  Verification development for the gofilebot repository.

  Shallow embedding of the operation-orchestration subsystem:
    * scheduler.py  — UploadScheduler (task table, tick loop, schedule/cancel)
    * monitor.py    — FileUploadHandler (validity, lock probe, stabilization)
    * main.py       — download_with_progress / upload_with_progress /
                      handle_upload (orchestrator, status finalization)
    * database.py   — operations table (add / update / remove)
    * gofile.py     — uploadFile (backend call, local-file removal, errors)

  Machine integers do not overflow in the modelled paths, so sizes and
  times are Nat.  Fallible code returns explicit result inductives.
-/

/- ===== scheduler.py ===== -/

/-- One entry of `UploadScheduler.scheduled_tasks` (scheduler.py:90-95).
`actionId` stands for the opaque callback+args pair; `succeeds` records
whether invoking that callback completes without raising. -/
structure STask where
  scheduled_time : Nat
  actionId : Nat
  succeeds : Bool
  deriving DecidableEq, Repr

/-- Python `del self.scheduled_tasks[task_id]` (scheduler.py:52): dict keys
are unique, so deletion is filtering out the key. -/
def delTask (table : List (String × STask)) (id : String) : List (String × STask) :=
  table.filter (fun p => p.1 != id)

/-- The snapshot of due tasks built at scheduler.py:44-46:
all entries with `scheduled_time <= now`, in table order. -/
def dueTasks (table : List (String × STask)) (now : Nat) : List (String × STask) :=
  table.filter (fun p => decide (p.2.scheduled_time ≤ now))

/-- The `for task_id, task in tasks_to_run` loop of scheduler.py:49-55.
Each attempt is logged as `(id, succeeded)`.  The `del` at line 52 sits
inside the `try` after the awaited callback, so it only runs when the
callback did not raise; the `except` at line 54 logs and continues. -/
def runDue (due : List (String × STask)) (table : List (String × STask))
    (log : List (String × Bool)) : List (String × STask) × List (String × Bool) :=
  match due with
  | [] => (table, log)
  | (id, t) :: rest =>
    if t.succeeds then runDue rest (delTask table id) (log ++ [(id, true)])
    else runDue rest table (log ++ [(id, false)])

/-- One iteration of the `while self.running` loop body of
`_run_scheduler` (scheduler.py:38-58): snapshot the due tasks, then
attempt each in turn.  Returns the new table and the attempt log. -/
def runTick (table : List (String × STask)) (now : Nat) :
    List (String × STask) × List (String × Bool) :=
  runDue (dueTasks table now) table []

/-- `UploadScheduler.schedule_upload` (scheduler.py:65-100): a duplicate
`task_id` raises ValueError inside the `try`, which the `except` turns
into `return False` with no mutation; otherwise the task is inserted and
the call returns True. -/
def schedule_upload (table : List (String × STask)) (task_id : String) (t : STask) :
    Bool × List (String × STask) :=
  if (table.lookup task_id).isSome then (false, table)
  else (true, table ++ [(task_id, t)])

/- ===== monitor.py ===== -/

/-- Observable state of one file at one instant: whether it exists, its
extension (with the leading dot, lowercased, as `os.path.splitext` gives
it), its size, and whether the exclusive `open(path, 'rb+')` probe of
`_is_file_locked` (monitor.py:64) would fail. -/
structure FileView where
  present : Bool
  ext : String
  size : Nat
  probeLocked : Bool
  deriving DecidableEq, Repr

/-- Configuration consumed by `FileUploadHandler`: the constructor's
`allowed_extensions` plus `MONITOR_SETTINGS` (config.py:303-313). -/
structure MonitorCfg where
  allowed : List String
  minSize : Nat
  maxSize : Nat
  cooldown : Nat
  deriving DecidableEq, Repr

/-- The concrete `MONITOR_SETTINGS` values of config.py:303-306:
cooldown_period 5, min_file_size 1024, max_file_size 1 GiB. -/
def monitorSettings (allowed : List String) : MonitorCfg :=
  ⟨allowed, 1024, 1073741824, 5⟩

/-- Python dict assignment `self.processing_files[file_path] = time.time()`
(monitor.py:33): overwrite the key if present, else insert. -/
def setEntry (ps : List (String × Nat)) (k : String) (v : Nat) : List (String × Nat) :=
  ps.filter (fun p => p.1 != k) ++ [(k, v)]

/-- Python `self.processing_files.pop(file_path, None)` (monitor.py:92). -/
def popEntry (ps : List (String × Nat)) (k : String) : List (String × Nat) :=
  ps.filter (fun p => p.1 != k)

/-- `FileUploadHandler._is_valid_file` (monitor.py:36-53): extension must
be in the allowed list, then `os.path.getsize` (which raises on a missing
file, caught as False), then the size bounds. -/
def is_valid_file (cfg : MonitorCfg) (f : FileView) : Bool :=
  if !(cfg.allowed.contains f.ext) then false
  else if !f.present then false
  else if f.size < cfg.minSize then false
  else if cfg.maxSize < f.size then false
  else true

/-- `FileUploadHandler._is_file_locked` (monitor.py:55-70): locked when the
file was first seen less than `cooldown` ago (entry in `processing_files`),
or when the exclusive-open probe fails (a missing file also makes `open`
raise, caught as locked). -/
def is_file_locked (cfg : MonitorCfg) (entryTime : Option Nat) (now : Nat)
    (f : FileView) : Bool :=
  match entryTime with
  | some last =>
    if now - last < cfg.cooldown then true
    else if !f.present then true
    else f.probeLocked
  | none =>
    if !f.present then true
    else f.probeLocked

/-- Result of the detection step: whether a stabilization task was created,
and the updated `processing_files`. -/
structure CreatedResult where
  scheduled : Bool
  processing : List (String × Nat)
  deriving DecidableEq, Repr

/-- `FileUploadHandler.on_created` (monitor.py:20-34) for a non-directory
event: reject if invalid or locked, else record the pending file and
schedule `_process_file`. -/
def on_created (cfg : MonitorCfg) (processing : List (String × Nat)) (path : String)
    (now : Nat) (f0 : FileView) : CreatedResult :=
  if !(is_valid_file cfg f0) then ⟨false, processing⟩
  else if is_file_locked cfg (processing.lookup path) now f0 then ⟨false, processing⟩
  else ⟨true, setEntry processing path now⟩

/-- Result of the stabilization step: whether the ingestion action
(`upload_callback`) was invoked, and the updated `processing_files`. -/
structure ProcessResult where
  ingested : Bool
  processing : List (String × Nat)
  deriving DecidableEq, Repr

/-- `FileUploadHandler._process_file` (monitor.py:72-92) after the
`await asyncio.sleep(cooldown)`: re-check existence, validity and lock;
drop silently when any re-check fails; otherwise invoke the ingestion
action.  The `finally` pops the pending entry on every path, and no
branch schedules another check (`create_task` appears only in
`on_created`). -/
def process_file (cfg : MonitorCfg) (processing : List (String × Nat)) (path : String)
    (checkTime : Nat) (f1 : FileView) : ProcessResult :=
  if !f1.present then ⟨false, popEntry processing path⟩
  else if !(is_valid_file cfg f1) then ⟨false, popEntry processing path⟩
  else if is_file_locked cfg (processing.lookup path) checkTime f1 then
    ⟨false, popEntry processing path⟩
  else ⟨true, popEntry processing path⟩

/-- The detection-to-ingestion pipeline for one file event: `f0` is the
file's state at detection time `t0`, `f1` its state at the stabilization
re-check `cooldown` seconds later.  True iff the ingestion action runs. -/
def watcherInvokes (cfg : MonitorCfg) (processing : List (String × Nat)) (path : String)
    (t0 : Nat) (f0 f1 : FileView) : Bool :=
  let c := on_created cfg processing path t0 f0
  if c.scheduled then
    (process_file cfg c.processing path (t0 + cfg.cooldown) f1).ingested
  else false

/- ===== main.py: transfer executor ===== -/

/-- `ERROR_MESSAGES['operation_cancelled']` (config.py:116). -/
def cancelMsg : String := "Operation cancelled by user"

/-- `PROGRESS_UPDATE_INTERVAL` (config.py:135).  main.py imports it
(line 17) and never uses it. -/
def PROGRESS_UPDATE_INTERVAL : Nat := 1

/-- One chunk yielded by `response.content.iter_chunked(8192)`
(main.py:132).  `t` is a ghost arrival timestamp carried only for
observation: the code never reads a clock in the chunk loop. -/
structure TChunk where
  t : Nat
  size : Nat
  deriving DecidableEq, Repr

/-- One invocation of the progress callback `update_progress_message`:
emission time (ghost, equal to the triggering chunk's arrival time),
bytes moved so far, and the total size shown. -/
structure PReport where
  t : Nat
  current : Nat
  total : Nat
  deriving DecidableEq, Repr

/-- Exceptions that cross the modelled function boundaries.
`fileNotFoundError` is what `os.path.getsize` raises on a missing file
(main.py:315, after `uploadFile` deleted it). -/
inductive PyErr where
  | valueError (msg : String)
  | zeroDivisionError
  | fileNotFoundError
  | goFileError (msg : String)
  | goFileUploadError (msg : String)
  deriving DecidableEq, Repr

/-- Termination of `download_with_progress`: normal return of the media
path, or a raised exception. -/
inductive DlRes where
  | ok
  | raised (e : PyErr)
  deriving DecidableEq, Repr

/-- Observable outcome of one `download_with_progress` run (URL branch):
bytes written to the output file, whether that file still exists on disk
afterwards, the progress reports emitted, and how the call ended. -/
structure DlOut where
  written : Nat
  fileOnDisk : Bool
  reports : List PReport
  result : DlRes
  deriving DecidableEq, Repr

/-- Reading of `active_operations[operation_id]['cancelled']` at the k-th
poll: the flag, set once by `handle_cancel`, reads true from poll index
`n` onwards when `cancelFrom = some n`, and never when `none`. -/
def cancelSeen (cancelFrom : Option Nat) (k : Nat) : Bool :=
  match cancelFrom with
  | none => false
  | some n => decide (n ≤ k)

/-- The `async for chunk in response.content.iter_chunked(8192)` loop of
`download_with_progress` (main.py:132-149), chunk index `k`, bytes so far
`downloaded`.  Per iteration, in source order: poll the cancellation flag
(if set: close, remove the partial file, raise ValueError with the
cancelled message); write the chunk; `progress = downloaded / total_size`
(raises ZeroDivisionError when the content-length was 0); emit one
progress report.  An empty stream falls straight through to the return. -/
def dlLoop (cancelFrom : Option Nat) (total : Nat) :
    List TChunk → Nat → Nat → List PReport → DlOut
  | [], _, downloaded, reports => ⟨downloaded, true, reports, .ok⟩
  | c :: rest, k, downloaded, reports =>
    if cancelSeen cancelFrom k then
      ⟨downloaded, false, reports, .raised (.valueError cancelMsg)⟩
    else if total = 0 then
      ⟨downloaded + c.size, true, reports, .raised .zeroDivisionError⟩
    else
      dlLoop cancelFrom total rest (k + 1) (downloaded + c.size)
        (reports ++ [⟨c.t, downloaded + c.size, total⟩])

/-- `download_with_progress` (main.py:112-149), URL branch, after a 200
response: `total` is the content-length header, the output file is
created by `open(media, "wb")`, then the chunk loop runs. -/
def download_with_progress (chunks : List TChunk) (total : Nat)
    (cancelFrom : Option Nat) : DlOut :=
  dlLoop cancelFrom total chunks 0 0 []

/- ===== main.py: upload and orchestrator ===== -/

/-- Payload of a successful GoFile upload response; its fields are only
echoed to the user, so it stays opaque. -/
abbrev GoData := Nat

/-- Outcome of one `uploadFile` call as seen by its caller. -/
inductive UpRes where
  | ok (d : GoData)
  | raised (e : PyErr)
  deriving DecidableEq, Repr

/-- `upload_with_progress` (main.py:287-326): one report at 0 bytes (the
`os.path.getsize` at main.py:299 still finds the file), then the blocking
`uploadFile` call.  A successful `uploadFile` has already executed
`os.remove(file_path)` (gofile.py:79), so in the normal case
(`fileGone = true`) the `os.path.getsize` of the 100% report at
main.py:315 raises FileNotFoundError, which the `except` at
main.py:324-326 logs and re-raises: the 100% report is never emitted.
Only when that removal failed (caught and logged at gofile.py:81-82,
file left in place, `fileGone = false`) is the 100% report emitted and
the response returned.  An exception from `uploadFile` itself is logged
and re-raised after the initial report.  `upT0` and `upT1` are the ghost
emission times of the reports. -/
def upload_with_progress (size upT0 upT1 : Nat) (u : UpRes) (fileGone : Bool) :
    List PReport × UpRes :=
  match u with
  | .ok d =>
    if fileGone then ([⟨upT0, 0, size⟩], .raised .fileNotFoundError)
    else ([⟨upT0, 0, size⟩, ⟨upT1, size, size⟩], .ok d)
  | .raised e => ([⟨upT0, 0, size⟩], .raised e)

/-- Environment of one `/upload` run through `handle_upload`
(main.py:328-449), URL branch with a 200 response: the chunk stream and
declared total of the download, the cancellation-flag schedule, the two
validation results, the ghost report times of the upload phase, the
outcome of the `uploadFile` call, and `fileGone`: whether the
`os.remove` inside a successful `uploadFile` actually deleted the local
file (gofile.py:78-82 catches a failing removal and leaves the file;
the normal case is `true`). -/
structure UploadEnv where
  chunks : List TChunk
  total : Nat
  cancelFrom : Option Nat
  sizeOk : Bool
  typeOk : Bool
  upT0 : Nat
  upT1 : Nat
  upload : UpRes
  fileGone : Bool
  deriving DecidableEq, Repr

/-- One durable-store call made by `handle_upload`:
`add_operation` (writes status 'active', database.py:21-29),
`update_operation_status`, and `remove_operation` in the `finally`. -/
inductive DbEvent where
  | add
  | update (s : String)
  | remove
  deriving DecidableEq, Repr

/-- Observable trace of one `handle_upload` run: the durable-store calls
in order, and all progress reports emitted for the operation. -/
structure OpRun where
  events : List DbEvent
  reports : List PReport
  deriving DecidableEq, Repr

/-- `handle_upload` (main.py:328-449).  Control flow: `add_operation`;
download (any exception there — the re-raised cancellation ValueError,
a wrapped download ValueError, or ZeroDivisionError — reaches one of the
two outer except blocks, both of which record status "failed"); the
post-download cancellation poll at line 364 (poll index = number of
chunks); size then type validation (ValueError → "failed"); the upload
phase (a GoFile error is re-raised as ValueError → "failed"; the
FileNotFoundError from the 100%-report's `os.path.getsize` after
`uploadFile` deleted the file reaches the `except Exception` at
main.py:440 → "failed").  Status "completed" is recorded only when
`upload_with_progress` returns normally, i.e. when the backend upload
succeeded and the local file survived the removal — then the
`os.path.getsize` in `update_stats` (main.py:390) also succeeds.  The
`finally` always calls `remove_operation`. -/
def handle_upload (env : UploadEnv) : OpRun :=
  let dl := download_with_progress env.chunks env.total env.cancelFrom
  match dl.result with
  | .raised _ => ⟨[.add, .update "failed", .remove], dl.reports⟩
  | .ok =>
    if cancelSeen env.cancelFrom env.chunks.length then
      ⟨[.add, .update "failed", .remove], dl.reports⟩
    else if !env.sizeOk then ⟨[.add, .update "failed", .remove], dl.reports⟩
    else if !env.typeOk then ⟨[.add, .update "failed", .remove], dl.reports⟩
    else
      let up := upload_with_progress dl.written env.upT0 env.upT1 env.upload
        env.fileGone
      match up.2 with
      | .raised _ => ⟨[.add, .update "failed", .remove], dl.reports ++ up.1⟩
      | .ok _ => ⟨[.add, .update "completed", .remove], dl.reports ++ up.1⟩

/-- The sequence of status values recorded for the operation by the
durable-store calls: `add_operation` writes the literal 'active'
(database.py:28), `update_operation_status` writes its argument,
`remove_operation` writes none. -/
def statusHistory (events : List DbEvent) : List String :=
  events.filterMap (fun e =>
    match e with
    | .add => some "active"
    | .update s => some s
    | .remove => none)

/-- Spec-side predicate, from the spec's words (§4.2): progress
notifications for one transfer are emitted "at most once per configured
update interval" — consecutive emission times at least `interval` apart. -/
def specThrottled (interval : Nat) (reports : List PReport) : Prop :=
  List.Chain' (fun a b => a + interval ≤ b) (reports.map PReport.t)

/-- Sum of the chunk sizes of a stream. -/
def sumSizes (cs : List TChunk) : Nat := (cs.map TChunk.size).sum

/-- The reports the chunk loop appends on an uninterrupted run starting
from `d` bytes already downloaded: cumulative byte counts at the chunks'
arrival times. -/
def dlEmit : List TChunk → Nat → Nat → List PReport
  | [], _, _ => []
  | c :: cs, d, total => ⟨c.t, d + c.size, total⟩ :: dlEmit cs (d + c.size) total

/- ===== database.py ===== -/

/-- One record of the `operations` table (database.py:23-29). -/
structure DbOp where
  operation_id : String
  user_id : Nat
  type : String
  start_time : Nat
  status : String
  deriving DecidableEq, Repr

/-- `add_operation` (database.py:21-29): inserts a record whose status is
the literal 'active'. -/
def add_operation (table : List DbOp) (oid : String) (uid : Nat) (ty : String)
    (now : Nat) : List DbOp :=
  table ++ [⟨oid, uid, ty, now, "active"⟩]

/-- `update_operation_status` (database.py:36-42): set the status of every
record with the given operation id. -/
def update_operation_status (table : List DbOp) (oid s : String) : List DbOp :=
  table.map (fun op =>
    if op.operation_id = oid then ⟨op.operation_id, op.user_id, op.type, op.start_time, s⟩
    else op)

/-- `remove_operation` (database.py:31-34). -/
def remove_operation (table : List DbOp) (oid : String) : List DbOp :=
  table.filter (fun op => op.operation_id != oid)

/- ===== gofile.py ===== -/

/-- Exceptions raised inside the `try` block of `uploadFile`
(gofile.py:58-99) before its own except-handlers rewrap them. -/
inductive GoRaw where
  | apiError (msg : String)
  | requestErr (msg : String)
  | fileNotFound (msg : String)
  deriving DecidableEq, Repr

/-- Python `str(e)` on the raw exceptions. -/
def pyStr : GoRaw → String
  | .apiError m => m
  | .requestErr m => m
  | .fileNotFound m => m

/-- Parsed body of the upload response: `response.json()` may fail, may
yield a falsy value, or yields a dict with a `status` field. -/
inductive RespBody where
  | invalid
  | empty
  | ok (status : String) (payload : GoData)
  deriving DecidableEq, Repr

/-- World state seen by one `uploadFile` call: whether `get_server`
succeeds, whether `requests.post` + `raise_for_status` succeed, and the
response body. -/
structure UploadWorld where
  serverOk : Bool
  postOk : Bool
  body : RespBody
  deriving DecidableEq, Repr

/-- Result of the gofile model: final filesystem and outcome. -/
inductive RawRes where
  | ok (d : GoData)
  | raised (e : GoRaw)
  deriving DecidableEq, Repr

/-- Python substring test `pat in s`, via splitting. -/
def containsSub (s pat : String) : Bool := (s.splitOn pat).length != 1

/-- Python `s.split(sep)[1]`. -/
def splitSecond (s sep : String) : String := ((s.splitOn sep).drop 1).headD ""

/-- Message of the `GoFileAPIError` raised by the status dispatch of
gofile.py:95-99 for a non-ok status. -/
def apiMsg (st : String) : String :=
  if containsSub st "error-" then "GoFile API error: " ++ splitSecond st "-"
  else "Unknown GoFile API response: " ++ st

/-- The `try` block of `uploadFile` (gofile.py:58-99) over a filesystem
`fs` (the list of existing paths): get server; `open(file_path, 'rb')`
(raises if missing); `requests.post` + `raise_for_status`;
`os.remove(file_path)` — before the body is inspected; then JSON parse,
falsy check, and the status dispatch. -/
def uploadFileBody (fs : List String) (path : String) (w : UploadWorld) :
    List String × RawRes :=
  if !w.serverOk then (fs, .raised (.apiError "Failed to get GoFile server"))
  else if !(fs.contains path) then (fs, .raised (.fileNotFound path))
  else if !w.postOk then (fs, .raised (.requestErr "request failed"))
  else
    let fs2 := fs.filter (fun q => q != path)
    match w.body with
    | .invalid => (fs2, .raised (.apiError "Invalid JSON response from GoFile"))
    | .empty => (fs2, .raised (.apiError "Empty response from GoFile"))
    | .ok status payload =>
      if status == "ok" then (fs2, .ok payload)
      else if containsSub status "error-" then
        (fs2, .raised (.apiError ("GoFile API error: " ++ splitSecond status "-")))
      else (fs2, .raised (.apiError ("Unknown GoFile API response: " ++ status)))

/-- `uploadFile` (gofile.py:41-110) including its except-handlers: a
`requests` RequestException becomes `GoFileUploadError`; every other
exception raised in the try block — including the internal
`GoFileAPIError`s — is rewrapped as `GoFileError("Upload failed: ...")`
by the catch-all at gofile.py:104-106. -/
def uploadFile (fs : List String) (path : String) (w : UploadWorld) :
    List String × UpRes :=
  let r := uploadFileBody fs path w
  match r.2 with
  | .ok d => (r.1, .ok d)
  | .raised (.requestErr m) =>
    (r.1, .raised (.goFileUploadError ("Upload request failed: " ++ m)))
  | .raised e => (r.1, .raised (.goFileError ("Upload failed: " ++ pyStr e)))

/- ===== theorems: scheduler ===== -/

/-- The attempt log of one tick: every due task is attempted, in snapshot
order, whether or not earlier attempts failed. -/
theorem runDue_log (due : List (String × STask)) :
    ∀ (table : List (String × STask)) (log : List (String × Bool)),
      (runDue due table log).2 = log ++ due.map (fun p => (p.1, p.2.succeeds)) := by
  induction due with
  | nil => intro table log; simp [runDue]
  | cons p rest ih =>
    intro table log
    obtain ⟨id, t⟩ := p
    cases ht : t.succeeds <;> simp [runDue, ht, ih]

/-- The table after one tick: exactly the entries whose key is not that of
a successfully executed due task survive. -/
theorem runDue_table (due : List (String × STask)) :
    ∀ (table : List (String × STask)) (log : List (String × Bool)),
      (runDue due table log).1 =
        table.filter (fun q => !(due.any (fun p => p.2.succeeds && q.1 == p.1))) := by
  induction due with
  | nil => intro table log; simp [runDue]
  | cons p rest ih =>
    intro table log
    obtain ⟨id, t⟩ := p
    cases ht : t.succeeds
    · simp [runDue, ht, ih]
    · simp only [runDue, ht, if_true]
      rw [ih, delTask, List.filter_filter]
      congr 1
      funext q
      simp [List.any_cons, ht, Bool.and_comm, bne]

/-- C2, counterexample: a single due task whose action raises is NOT
removed from the task table by the tick that attempted it, and the next
tick attempts the same task again — refuting removal-after-attempt and
never-retried at this concrete input. -/
theorem scheduler_failing_task_not_removed_cex :
    (runTick [("a", (⟨0, 0, false⟩ : STask))] 0).1 = [("a", ⟨0, 0, false⟩)] ∧
    (runTick [("a", (⟨0, 0, false⟩ : STask))] 0).2 = [("a", false)] ∧
    (runTick (runTick [("a", (⟨0, 0, false⟩ : STask))] 0).1 0).2 = [("a", false)] := by
  decide

/-- C2, amended: at a tick, every due task is attempted in order even when
an earlier action raised; a due task whose action succeeds is removed
immediately after its execution; but a due task whose action raises
remains in the task table (the `del` at scheduler.py:52 is skipped when
the callback raises), so it is attempted again at later ticks. -/
theorem scheduler_tick_failed_task_retained (table : List (String × STask)) (now : Nat)
    (hnd : (table.map Prod.fst).Nodup) :
    (runTick table now).2 = (dueTasks table now).map (fun p => (p.1, p.2.succeeds)) ∧
    (∀ p ∈ dueTasks table now, p.2.succeeds = true →
      ∀ q ∈ (runTick table now).1, q.1 ≠ p.1) ∧
    (∀ p ∈ dueTasks table now, p.2.succeeds = false → p ∈ (runTick table now).1) := by
  refine ⟨?_, ?_, ?_⟩
  · rw [runTick, runDue_log]; simp
  · intro p hp hps q hq
    rw [runTick, runDue_table, List.mem_filter] at hq
    obtain ⟨-, hq2⟩ := hq
    simp only [Bool.not_eq_true', List.any_eq_false] at hq2
    intro heq
    have hfalse := hq2 p hp
    rw [hps, heq] at hfalse
    simp at hfalse
  · intro p hp hps
    rw [runTick, runDue_table, List.mem_filter]
    refine ⟨List.mem_of_mem_filter hp, ?_⟩
    simp only [Bool.not_eq_true', List.any_eq_false]
    intro r hr
    cases hpr : (p.1 == r.1)
    · simp [hpr]
    · have hkey : p.1 = r.1 := by simpa using hpr
      have hddup : ((dueTasks table now).map Prod.fst).Nodup :=
        List.Nodup.sublist (List.Sublist.map _ (List.filter_sublist table)) hnd
      have hpr2 : p = r := List.inj_on_of_nodup_map hddup hp hr hkey
      rw [← hpr2, hps]
      simp

/-- Witness for `scheduler_tick_failed_task_retained` at a concrete
two-task table. -/
theorem scheduler_tick_failed_task_retained_witness :
    (([("a", (⟨0, 0, false⟩ : STask)), ("b", ⟨0, 1, true⟩)].map Prod.fst).Nodup) ∧
    ((runTick [("a", (⟨0, 0, false⟩ : STask)), ("b", ⟨0, 1, true⟩)] 0).2 =
        (dueTasks [("a", ⟨0, 0, false⟩), ("b", ⟨0, 1, true⟩)] 0).map
          (fun p => (p.1, p.2.succeeds)) ∧
      (∀ p ∈ dueTasks [("a", (⟨0, 0, false⟩ : STask)), ("b", ⟨0, 1, true⟩)] 0,
        p.2.succeeds = true →
        ∀ q ∈ (runTick [("a", (⟨0, 0, false⟩ : STask)), ("b", ⟨0, 1, true⟩)] 0).1,
          q.1 ≠ p.1) ∧
      (∀ p ∈ dueTasks [("a", (⟨0, 0, false⟩ : STask)), ("b", ⟨0, 1, true⟩)] 0,
        p.2.succeeds = false →
        p ∈ (runTick [("a", (⟨0, 0, false⟩ : STask)), ("b", ⟨0, 1, true⟩)] 0).1)) :=
  ⟨by decide, scheduler_tick_failed_task_retained _ 0 (by decide)⟩

/-- C6: scheduling under an id already present in the task table returns
false and leaves the table exactly as it was — the existing task's time
and action are untouched and no entry is added. -/
theorem schedule_upload_duplicate_id (table : List (String × STask)) (task_id : String)
    (t : STask) (h : (table.lookup task_id).isSome = true) :
    schedule_upload table task_id t = (false, table) := by
  simp [schedule_upload, h]

/-- Witness for `schedule_upload_duplicate_id`: re-scheduling id "a" with
a different time and action changes nothing. -/
theorem schedule_upload_duplicate_id_witness :
    (([("a", (⟨5, 7, true⟩ : STask))].lookup "a").isSome = true) ∧
    schedule_upload [("a", (⟨5, 7, true⟩ : STask))] "a" ⟨9, 8, false⟩ =
      (false, [("a", ⟨5, 7, true⟩)]) :=
  ⟨by decide, schedule_upload_duplicate_id _ _ _ (by decide)⟩

/- ===== theorems: transfer executor and orchestrator ===== -/

/-- C5, counterexample: a transfer whose cancellation flag is set at start
but whose chunk stream is empty (content-length 0, empty body) never runs
the loop body, so the poll at main.py:133 never happens: the call returns
success instead of reporting Cancelled, and the (empty) output file
created by `open(media, "wb")` is left on disk — refuting the claim as
stated at this concrete input. -/
theorem download_cancel_at_start_empty_cex :
    (download_with_progress [] 0 (some 0)).result = DlRes.ok ∧
    (download_with_progress [] 0 (some 0)).fileOnDisk = true := by
  decide

/-- C5, amended: for every transfer with at least one chunk whose
cancellation flag is already set when the transfer starts, the executor
aborts before writing any chunk (zero bytes written), removes the partial
output file, emits no progress report, and raises the cancelled
ValueError. -/
theorem download_cancel_at_start (chunks : List TChunk) (total : Nat)
    (hne : chunks ≠ []) :
    download_with_progress chunks total (some 0) =
      ⟨0, false, [], DlRes.raised (PyErr.valueError cancelMsg)⟩ := by
  cases chunks with
  | nil => exact absurd rfl hne
  | cons c cs => simp [download_with_progress, dlLoop, cancelSeen]

/-- Witness for `download_cancel_at_start`: one 8 KiB chunk pending,
flag set before the first poll. -/
theorem download_cancel_at_start_witness :
    ([(⟨0, 8192⟩ : TChunk)] ≠ []) ∧
    download_with_progress [(⟨0, 8192⟩ : TChunk)] 1048576 (some 0) =
      ⟨0, false, [], DlRes.raised (PyErr.valueError cancelMsg)⟩ :=
  ⟨by decide, download_cancel_at_start _ 1048576 (by decide)⟩

/-- An uncancelled run of the chunk loop with a nonzero declared total:
it moves all bytes and appends one report per chunk. -/
theorem dlLoop_none_run (total : Nat) (ht : total ≠ 0) :
    ∀ (chunks : List TChunk) (k d : Nat) (rs : List PReport),
      dlLoop none total chunks k d rs =
        ⟨d + sumSizes chunks, true, rs ++ dlEmit chunks d total, DlRes.ok⟩ := by
  intro chunks
  induction chunks with
  | nil => intro k d rs; simp [dlLoop, sumSizes, dlEmit]
  | cons c cs ih =>
    intro k d rs
    simp [dlLoop, cancelSeen, ht, ih, dlEmit, sumSizes, Nat.add_assoc]

/-- The chunk loop emits one report per chunk. -/
theorem dlEmit_length (total : Nat) :
    ∀ (cs : List TChunk) (d : Nat), (dlEmit cs d total).length = cs.length := by
  intro cs
  induction cs with
  | nil => intro d; simp [dlEmit]
  | cons c cs ih => intro d; simp [dlEmit, ih]

/-- Reports are emitted at the chunks' arrival times: the loop applies no
time-based gating. -/
theorem dlEmit_times (total : Nat) :
    ∀ (cs : List TChunk) (d : Nat),
      (dlEmit cs d total).map PReport.t = cs.map TChunk.t := by
  intro cs
  induction cs with
  | nil => intro d; simp [dlEmit]
  | cons c cs ih => intro d; simp [dlEmit, ih]

/-- C4, counterexample: two chunks arriving at the same instant (time 0)
produce two progress notifications at time 0 — more than one inside a
single `PROGRESS_UPDATE_INTERVAL`, refuting the claimed throttling at
this concrete input. -/
theorem download_progress_unthrottled_cex :
    (download_with_progress [⟨0, 4096⟩, ⟨0, 4096⟩] 8192 none).reports.map PReport.t
      = [0, 0] ∧
    ¬ specThrottled PROGRESS_UPDATE_INTERVAL
        (download_with_progress [⟨0, 4096⟩, ⟨0, 4096⟩] 8192 none).reports := by
  constructor
  · decide
  · intro hthr
    rw [specThrottled] at hthr
    rw [show (download_with_progress [⟨0, 4096⟩, ⟨0, 4096⟩] 8192 none).reports.map PReport.t
        = [0, 0] from rfl, List.chain'_cons] at hthr
    have h1 := hthr.1
    simp only [PROGRESS_UPDATE_INTERVAL] at h1
    omega

/-- C4, amended: in an uncancelled run the progress callback is invoked
exactly once after every chunk, at the chunk's arrival time — the code
never consults `PROGRESS_UPDATE_INTERVAL` (imported at main.py:17, used
nowhere), so notification volume is one per chunk, not one per interval. -/
theorem download_progress_every_chunk (chunks : List TChunk) (total : Nat)
    (ht : total ≠ 0) :
    (download_with_progress chunks total none).reports.length = chunks.length ∧
    (download_with_progress chunks total none).reports.map PReport.t =
      chunks.map TChunk.t := by
  rw [download_with_progress, dlLoop_none_run total ht]
  simp only [List.nil_append]
  exact ⟨dlEmit_length total chunks 0, dlEmit_times total chunks 0⟩

/-- Witness for `download_progress_every_chunk`: three chunks, three
notifications regardless of the 1-second interval. -/
theorem download_progress_every_chunk_witness :
    ((8192 : Nat) ≠ 0) ∧
    ((download_with_progress [⟨0, 1024⟩, ⟨0, 1024⟩, ⟨1, 1024⟩] 8192 none).reports.length
        = ([(⟨0, 1024⟩ : TChunk), ⟨0, 1024⟩, ⟨1, 1024⟩]).length ∧
      (download_with_progress [⟨0, 1024⟩, ⟨0, 1024⟩, ⟨1, 1024⟩] 8192 none).reports.map PReport.t
        = ([(⟨0, 1024⟩ : TChunk), ⟨0, 1024⟩, ⟨1, 1024⟩]).map TChunk.t) :=
  ⟨by decide, download_progress_every_chunk _ 8192 (by decide)⟩

/-- C1, counterexample: a transfer aborted by the cancellation flag raises
the cancelled ValueError, and `handle_upload` records final status
"failed" (main.py:436-439) — "cancelled" is never recorded — refuting the
claim at this concrete input. -/
theorem cancelled_operation_recorded_failed_cex :
    (download_with_progress [(⟨0, 8192⟩ : TChunk)] 8192 (some 0)).result =
      DlRes.raised (PyErr.valueError cancelMsg) ∧
    statusHistory (handle_upload ⟨[⟨0, 8192⟩], 8192, some 0, true, true, 0, 0,
        UpRes.ok 0, true⟩).events = ["active", "failed"] ∧
    ¬ ("cancelled" ∈ statusHistory (handle_upload ⟨[⟨0, 8192⟩], 8192, some 0, true,
        true, 0, 0, UpRes.ok 0, true⟩).events) := by
  decide

/-- C1, amended: an operation whose transfer aborts because the
cancellation flag was set is finalized with recorded status "failed" —
the cancellation ValueError is handled by the same `except ValueError`
path as any other failure; no "cancelled" status exists in the code. -/
theorem cancelled_operation_finalized_failed (env : UploadEnv)
    (hc : (download_with_progress env.chunks env.total env.cancelFrom).result =
      DlRes.raised (PyErr.valueError cancelMsg)) :
    (handle_upload env).events = [DbEvent.add, DbEvent.update "failed", DbEvent.remove] := by
  simp only [handle_upload]
  rw [hc]

/-- Witness for `cancelled_operation_finalized_failed`. -/
theorem cancelled_operation_finalized_failed_witness :
    ((download_with_progress
        (UploadEnv.chunks ⟨[⟨0, 8192⟩], 8192, some 0, true, true, 0, 0,
          UpRes.ok 0, true⟩)
        (UploadEnv.total ⟨[⟨0, 8192⟩], 8192, some 0, true, true, 0, 0,
          UpRes.ok 0, true⟩)
        (UploadEnv.cancelFrom ⟨[⟨0, 8192⟩], 8192, some 0, true, true, 0, 0,
          UpRes.ok 0, true⟩)).result = DlRes.raised (PyErr.valueError cancelMsg)) ∧
    (handle_upload ⟨[⟨0, 8192⟩], 8192, some 0, true, true, 0, 0,
        UpRes.ok 0, true⟩).events =
      [DbEvent.add, DbEvent.update "failed", DbEvent.remove] :=
  ⟨by decide, cancelled_operation_finalized_failed _ (by decide)⟩

/-- C3, counterexample: the recorded status of a freshly created operation
is the literal "active" (database.py:28), not "pending".  A concrete run
whose backend upload even succeeds records exactly "active" then
"failed" (the local file was already deleted by gofile.py:79, so the
100%-report's `os.path.getsize` at main.py:315 raises FileNotFoundError
into the `except Exception` at main.py:440): "pending" never occurs,
refuting the claimed start-at-pending at this concrete input. -/
theorem operation_status_starts_active_cex :
    (add_operation [] "op1" 1 "upload" 0).map DbOp.status = ["active"] ∧
    statusHistory (handle_upload ⟨[⟨0, 5⟩], 5, none, true, true, 0, 0,
        UpRes.ok 0, true⟩).events = ["active", "failed"] ∧
    ("active" : String) ≠ "pending" := by
  decide

/-- C3, amended: every operation's recorded status starts at "active" when
the operation is created and makes exactly one further transition, to
"completed" or to "failed", before the record is removed; "pending" and
"cancelled" are never recorded.  ("completed" is reached only when the
backend upload succeeded and the local file survived `uploadFile`'s
removal; in the normal success case the FileNotFoundError at main.py:315
lands the run in the "failed" finalizer.) -/
theorem operation_status_trace (env : UploadEnv) :
    ∃ s, statusHistory (handle_upload env).events = ["active", s] ∧
      (s = "completed" ∨ s = "failed") := by
  simp only [handle_upload]
  repeat' split
  all_goals first
  | exact ⟨"failed", rfl, Or.inr rfl⟩
  | exact ⟨"completed", rfl, Or.inl rfl⟩

/-- One uninterrupted step of the chunk loop. -/
theorem dlLoop_cons_step (cancelFrom : Option Nat) (total : Nat) (c : TChunk)
    (cs : List TChunk) (k d : Nat) (rs : List PReport)
    (hcc : cancelSeen cancelFrom k = false) (htz : total ≠ 0) :
    dlLoop cancelFrom total (c :: cs) k d rs =
      dlLoop cancelFrom total cs (k + 1) (d + c.size)
        (rs ++ [⟨c.t, d + c.size, total⟩]) := by
  simp [dlLoop, hcc, htz]

/-- When a run of the chunk loop returns normally, its reports are the
accumulator followed by one cumulative report per chunk, and it moved all
the bytes. -/
theorem dlLoop_ok_reports (cancelFrom : Option Nat) (total : Nat) :
    ∀ (chunks : List TChunk) (k d : Nat) (rs : List PReport),
      (dlLoop cancelFrom total chunks k d rs).result = DlRes.ok →
      (dlLoop cancelFrom total chunks k d rs).reports = rs ++ dlEmit chunks d total ∧
      (dlLoop cancelFrom total chunks k d rs).written = d + sumSizes chunks := by
  intro chunks
  induction chunks with
  | nil => intro k d rs _; simp [dlLoop, dlEmit, sumSizes]
  | cons c cs ih =>
    intro k d rs hok
    cases hcc : cancelSeen cancelFrom k
    · by_cases htz : total = 0
      · simp [dlLoop, hcc, htz] at hok
      · rw [dlLoop_cons_step cancelFrom total c cs k d rs hcc htz] at hok ⊢
        obtain ⟨h1, h2⟩ := ih (k + 1) (d + c.size) (rs ++ [⟨c.t, d + c.size, total⟩]) hok
        refine ⟨?_, ?_⟩
        · rw [h1]; simp [dlEmit]
        · rw [h2]; simp [sumSizes, Nat.add_assoc]
    · simp [dlLoop, hcc] at hok

/-- A cons list with nonempty tail has the tail's last element. -/
theorem getLast?_cons_of_ne_nil {α : Type} (a : α) (l : List α) (h : l ≠ []) :
    (a :: l).getLast? = l.getLast? := by
  cases l with
  | nil => exact absurd rfl h
  | cons b m => exact List.getLast?_cons_cons

/-- The cumulative byte counts of the emitted reports are monotone
non-decreasing and bounded below by the starting offset. -/
theorem dlEmit_current_chain (total : Nat) :
    ∀ (cs : List TChunk) (d : Nat),
      List.Chain' (fun a b => a ≤ b) ((dlEmit cs d total).map PReport.current) ∧
      (∀ x ∈ ((dlEmit cs d total).map PReport.current).head?, d ≤ x) := by
  intro cs
  induction cs with
  | nil => intro d; simp [dlEmit]
  | cons c cs ih =>
    intro d
    obtain ⟨ih1, ih2⟩ := ih (d + c.size)
    constructor
    · rw [show dlEmit (c :: cs) d total =
          ⟨c.t, d + c.size, total⟩ :: dlEmit cs (d + c.size) total from rfl,
        List.map_cons]
      refine List.chain'_cons'.2 ⟨?_, ih1⟩
      intro y hy
      have hd := ih2 y hy
      simp only [PReport.current] at hd ⊢
      omega
    · rw [show dlEmit (c :: cs) d total =
          ⟨c.t, d + c.size, total⟩ :: dlEmit cs (d + c.size) total from rfl,
        List.map_cons]
      intro x hx
      simp at hx
      omega

/-- The last emitted report of a nonempty run carries the full byte
count. -/
theorem dlEmit_current_last (total : Nat) :
    ∀ (cs : List TChunk) (d : Nat), cs ≠ [] →
      ((dlEmit cs d total).map PReport.current).getLast? = some (d + sumSizes cs) := by
  intro cs
  induction cs with
  | nil => intro d h; exact absurd rfl h
  | cons c cs ih =>
    intro d _
    by_cases hcs : cs = []
    · subst hcs; simp [dlEmit, sumSizes]
    · have h2 := ih (d + c.size) hcs
      rw [show dlEmit (c :: cs) d total =
          ⟨c.t, d + c.size, total⟩ :: dlEmit cs (d + c.size) total from rfl,
        List.map_cons, getLast?_cons_of_ne_nil _ _ ?hne, h2]
      · congr 1
        simp [sumSizes, Nat.add_assoc]
      case hne =>
        obtain ⟨c2, cs2, rfl⟩ := List.exists_cons_of_ne_nil hcs
        simp [dlEmit]

/-- C7, counterexample: a `/upload` operation that downloads a 5-byte
file and whose backend upload succeeds emits the byte sequence [5, 0]:
the download phase ends at 5, the upload phase reports 0 at its start
(main.py:297-304), and the 100% report is never emitted because
gofile.py:79 already deleted the local file, so `os.path.getsize` at
main.py:315 raises FileNotFoundError.  The operation-wide report
sequence is not monotone non-decreasing, refuting the claim at this
concrete input. -/
theorem operation_progress_not_monotone_cex :
    ((handle_upload ⟨[⟨0, 5⟩], 5, none, true, true, 6, 7,
        UpRes.ok 0, true⟩).reports.map PReport.current) = [5, 0] ∧
    ¬ List.Chain' (fun a b => a ≤ b)
      ((handle_upload ⟨[⟨0, 5⟩], 5, none, true, true, 6, 7,
        UpRes.ok 0, true⟩).reports.map PReport.current) := by
  constructor
  · rfl
  · intro h
    rw [show ((handle_upload ⟨[⟨0, 5⟩], 5, none, true, true, 6, 7,
        UpRes.ok 0, true⟩).reports.map PReport.current) = [5, 0] from rfl,
      List.chain'_cons] at h
    exact absurd h.1 (by omega)

/-- C7, amended: within each transfer phase of an operation the progress
reports are monotone non-decreasing in bytes moved — for a download that
returns normally the reports are the cumulative chunk sums and the last
one equals the bytes received (= the declared total whenever the
content-length header is accurate).  After a successful backend upload
the upload phase has emitted only its initial 0-byte report in the
normal case (the local file was deleted by gofile.py:79, so the
100%-report's `os.path.getsize` at main.py:315 raises
FileNotFoundError); the 100% report, ending exactly at the file size, is
emitted only when that removal failed and the file survived.  Across the
two phases the sequence restarts at 0. -/
theorem transfer_phase_progress_monotone (chunks : List TChunk) (total : Nat)
    (cancelFrom : Option Nat) (size upT0 upT1 : Nat) (d : GoData) (fileGone : Bool)
    (hok : (download_with_progress chunks total cancelFrom).result = DlRes.ok) :
    List.Chain' (fun a b => a ≤ b)
      ((download_with_progress chunks total cancelFrom).reports.map PReport.current) ∧
    (chunks ≠ [] →
      ((download_with_progress chunks total cancelFrom).reports.map
        PReport.current).getLast? = some (sumSizes chunks)) ∧
    List.Chain' (fun a b => a ≤ b)
      ((upload_with_progress size upT0 upT1 (UpRes.ok d) fileGone).1.map
        PReport.current) ∧
    (fileGone = true →
      (upload_with_progress size upT0 upT1 (UpRes.ok d) fileGone).1.map
          PReport.current = [0] ∧
      (upload_with_progress size upT0 upT1 (UpRes.ok d) fileGone).2 =
        UpRes.raised PyErr.fileNotFoundError) ∧
    (fileGone = false →
      ((upload_with_progress size upT0 upT1 (UpRes.ok d) fileGone).1.map
        PReport.current).getLast? = some size) := by
  obtain ⟨hrep, -⟩ := dlLoop_ok_reports cancelFrom total chunks 0 0 [] hok
  refine ⟨?_, ?_, ?_, ?_, ?_⟩
  · rw [download_with_progress, hrep, List.nil_append]
    exact (dlEmit_current_chain total chunks 0).1
  · intro hne
    rw [download_with_progress, hrep, List.nil_append,
      dlEmit_current_last total chunks 0 hne, Nat.zero_add]
  · cases fileGone <;> simp [upload_with_progress, List.chain'_cons]
  · intro hg; subst hg; constructor <;> simp [upload_with_progress]
  · intro hg; subst hg; simp [upload_with_progress]

/-- Witness for `transfer_phase_progress_monotone`: one 8 KiB chunk, then
a successful upload of the same size whose local file survived the
removal (`fileGone = false`), the one case emitting the 100% report. -/
theorem transfer_phase_progress_monotone_witness :
    ((download_with_progress [(⟨0, 8192⟩ : TChunk)] 8192 none).result = DlRes.ok) ∧
    (List.Chain' (fun a b => a ≤ b)
      ((download_with_progress [(⟨0, 8192⟩ : TChunk)] 8192 none).reports.map
        PReport.current) ∧
    ([(⟨0, 8192⟩ : TChunk)] ≠ [] →
      ((download_with_progress [(⟨0, 8192⟩ : TChunk)] 8192 none).reports.map
        PReport.current).getLast? = some (sumSizes [⟨0, 8192⟩])) ∧
    List.Chain' (fun a b => a ≤ b)
      ((upload_with_progress 8192 1 2 (UpRes.ok 0) false).1.map PReport.current) ∧
    ((false : Bool) = true →
      (upload_with_progress 8192 1 2 (UpRes.ok 0) false).1.map
          PReport.current = [0] ∧
      (upload_with_progress 8192 1 2 (UpRes.ok 0) false).2 =
        UpRes.raised PyErr.fileNotFoundError) ∧
    ((false : Bool) = false →
      ((upload_with_progress 8192 1 2 (UpRes.ok 0) false).1.map
        PReport.current).getLast? = some 8192)) :=
  ⟨by decide, transfer_phase_progress_monotone _ 8192 none 8192 1 2 0 false (by decide)⟩

/- ===== theorems: filesystem watcher ===== -/

/-- A file below the configured minimum size never validates. -/
theorem is_valid_file_small (cfg : MonitorCfg) (f : FileView)
    (h : f.size < cfg.minSize) : is_valid_file cfg f = false := by
  simp [is_valid_file, h]

/-- C8: a file whose size is below the configured minimum — at detection
and at the stabilization re-check — never reaches the ingestion action,
even after the cooldown has elapsed: `on_created` rejects it at
monitor.py:25 and never schedules `_process_file`, whose own re-check at
monitor.py:79 would reject it again. -/
theorem monitor_small_file_never_ingested (cfg : MonitorCfg)
    (processing : List (String × Nat)) (path : String) (t0 : Nat) (f0 f1 : FileView)
    (h0 : f0.size < cfg.minSize) (h1 : f1.size < cfg.minSize) :
    watcherInvokes cfg processing path t0 f0 f1 = false := by
  have hv := is_valid_file_small cfg f0 h0
  simp [watcherInvokes, on_created, hv]

/-- Witness for `monitor_small_file_never_ingested`: a 100-byte `.txt`
file against the 1024-byte minimum of `MONITOR_SETTINGS`. -/
theorem monitor_small_file_never_ingested_witness :
    ((100 : Nat) < (monitorSettings [".txt"]).minSize) ∧
    ((500 : Nat) < (monitorSettings [".txt"]).minSize) ∧
    watcherInvokes (monitorSettings [".txt"]) [] "a.txt" 0
      ⟨true, ".txt", 100, false⟩ ⟨true, ".txt", 500, false⟩ = false :=
  ⟨by decide, by decide,
    monitor_small_file_never_ingested _ _ _ 0 _ _ (by decide) (by decide)⟩

/-- C9: a pending file judged locked at the stabilization re-check is
dropped: the ingestion action is not invoked, and the `finally` of
`_process_file` removes the pending entry; no further re-check exists in
the code (`create_task` appears only in `on_created`), so the file is not
retried. -/
theorem monitor_locked_at_recheck_dropped (cfg : MonitorCfg)
    (processing : List (String × Nat)) (path : String) (tc : Nat) (f1 : FileView)
    (hl : is_file_locked cfg (processing.lookup path) tc f1 = true) :
    (process_file cfg processing path tc f1).ingested = false ∧
    (process_file cfg processing path tc f1).processing = popEntry processing path := by
  constructor <;> simp [process_file, hl]

/-- Witness for `monitor_locked_at_recheck_dropped`: a valid 2 KiB file
whose exclusive-open probe still fails at the re-check. -/
theorem monitor_locked_at_recheck_dropped_witness :
    (is_file_locked (monitorSettings [".txt"]) ([("b.txt", 0)].lookup "b.txt") 5
      ⟨true, ".txt", 2048, true⟩ = true) ∧
    ((process_file (monitorSettings [".txt"]) [("b.txt", 0)] "b.txt" 5
        ⟨true, ".txt", 2048, true⟩).ingested = false ∧
      (process_file (monitorSettings [".txt"]) [("b.txt", 0)] "b.txt" 5
        ⟨true, ".txt", 2048, true⟩).processing = popEntry [("b.txt", 0)] "b.txt") :=
  ⟨by decide, monitor_locked_at_recheck_dropped _ _ _ 5 _ (by decide)⟩

/- ===== theorems: gofile.py ===== -/

/-- Computation of `uploadFile`'s try block when the HTTP layer succeeds
but the response body carries a non-ok status: the local file is removed
(gofile.py:79, before the status dispatch at line 92) and a
`GoFileAPIError` is raised. -/
theorem uploadFileBody_nonok (fs : List String) (path : String) (w : UploadWorld)
    (st : String) (payload : GoData) (hp : fs.contains path = true)
    (hs : w.serverOk = true) (hpost : w.postOk = true)
    (hb : w.body = RespBody.ok st payload) (hst : st ≠ "ok") :
    uploadFileBody fs path w =
      (fs.filter (fun q => q != path), RawRes.raised (GoRaw.apiError (apiMsg st))) := by
  have hbeq : (st == "ok") = false := by simp [hst]
  simp only [uploadFileBody, hs, hp, hpost, hb, apiMsg]
  simp only [Bool.not_true, Bool.false_eq_true, if_false, hbeq]
  by_cases hcs : containsSub st "error-" = true <;> simp [hcs]

/-- C10: when the HTTP request to the hosting backend succeeds but the
response body reports a non-ok status, `uploadFile` raises — the internal
`GoFileAPIError` is rewrapped by the catch-all into `GoFileError` with
the API-error message — and the local input file was already deleted
before the status was inspected, so on this error path the caller's
source file no longer exists. -/
theorem uploadFile_nonok_status_removes_file (fs : List String) (path : String)
    (w : UploadWorld) (st : String) (payload : GoData)
    (hp : fs.contains path = true) (hs : w.serverOk = true) (hpost : w.postOk = true)
    (hb : w.body = RespBody.ok st payload) (hst : st ≠ "ok") :
    (uploadFileBody fs path w).2 = RawRes.raised (GoRaw.apiError (apiMsg st)) ∧
    (uploadFile fs path w).2 =
      UpRes.raised (PyErr.goFileError ("Upload failed: " ++ apiMsg st)) ∧
    (uploadFile fs path w).1 = fs.filter (fun q => q != path) ∧
    ¬ path ∈ (uploadFile fs path w).1 := by
  have hbody := uploadFileBody_nonok fs path w st payload hp hs hpost hb hst
  refine ⟨by rw [hbody], ?_, ?_, ?_⟩
  · simp [uploadFile, hbody, pyStr]
  · simp [uploadFile, hbody]
  · simp [uploadFile, hbody, List.mem_filter]

/-- Witness for `uploadFile_nonok_status_removes_file`: backend answers
HTTP 200 with body status "error-notFound"; the input file is gone and
the surfaced error wraps the API error. -/
theorem uploadFile_nonok_status_removes_file_witness :
    ((["f.bin"].contains "f.bin") = true) ∧
    ((⟨true, true, RespBody.ok "error-notFound" 0⟩ : UploadWorld).serverOk = true) ∧
    ("error-notFound" : String) ≠ "ok" ∧
    ((uploadFileBody ["f.bin"] "f.bin" ⟨true, true, RespBody.ok "error-notFound" 0⟩).2 =
        RawRes.raised (GoRaw.apiError (apiMsg "error-notFound")) ∧
      (uploadFile ["f.bin"] "f.bin" ⟨true, true, RespBody.ok "error-notFound" 0⟩).2 =
        UpRes.raised (PyErr.goFileError ("Upload failed: " ++ apiMsg "error-notFound")) ∧
      (uploadFile ["f.bin"] "f.bin" ⟨true, true, RespBody.ok "error-notFound" 0⟩).1 =
        ["f.bin"].filter (fun q => q != "f.bin") ∧
      ¬ "f.bin" ∈ (uploadFile ["f.bin"] "f.bin"
          ⟨true, true, RespBody.ok "error-notFound" 0⟩).1) :=
  ⟨by decide, by decide, by decide,
    uploadFile_nonok_status_removes_file _ _ _ "error-notFound" 0
      (by decide) (by decide) (by decide) rfl (by decide)⟩
